import Mathlib

/-!
Shallow embedding of `src/fxratecollector/collect-rates.py`.

The program is a single linear pipeline: validate arguments, issue an HTTP
request to the Fixer.io API (with a bounded retry on the rate-limit error
code 106), rebase the EUR-based rate mapping to a USD base, and return it.

Modelling choices:
* JSON rate values (Python floats) are modelled as `Rat`; the claims are
  about exact division identities, which `Rat` expresses.
* A parsed JSON response is `FixerResponse`: the optional `success` flag,
  the optional `error` object (itself with optional `code` and `info`
  fields, matching the chained `dict.get` defaults in `_get`), and the
  `rates` mapping, modelled as an association list with the Python dict
  lookup semantics (`List.lookup` returns the binding of a key).
* The network is modelled as a stream `attempts : Nat → FixerResponse`
  giving the parsed response of the i-th HTTP request; functions return,
  alongside their result, the number of requests they issued.
* `datetime.strptime(at_date, "%Y-%m-%d")` is modelled by `validDate`,
  following CPython's `_strptime` regexes (`%Y` is exactly four digits,
  `%m` and `%d` are one or two digits) plus the `datetime` constructor's
  range checks (year at least 1, month 1..12, day within the month,
  Gregorian leap years).
-/

namespace FxCollect

/-- `FixerException(error_code, message)` as raised by `FixerClient._get`. -/
structure FixerException where
  error_code : Int
  message : String

/-- The `error` object of a failed API response: `{"code": ..., "info": ...}`,
with either field possibly absent (matching `data.get("error", {}).get(...)`). -/
structure ErrorPayload where
  code : Option Int
  info : Option String

/-- A parsed JSON response body of the Fixer API. -/
structure FixerResponse where
  success : Option Bool
  error : Option ErrorPayload
  rates : List (String × Rat)

/-- Splits a character list on the dash character, the grouping
`String.split`-style helper used by `validDate`. -/
def splitDash : List Char → List (List Char)
  | [] => [[]]
  | c :: cs =>
    let rest := splitDash cs
    if c = '-' then [] :: rest
    else
      match rest with
      | g :: gs => (c :: g) :: gs
      | [] => [[c]]

/-- Decimal value of a digit string. -/
def digitsVal (cs : List Char) : Nat :=
  cs.foldl (fun n c => 10 * n + (c.toNat - 48)) 0

/-- Gregorian leap-year test, as in `datetime`. -/
def isLeapYear (y : Nat) : Bool :=
  y % 4 == 0 && (y % 100 != 0 || y % 400 == 0)

/-- Number of days of month `m` in year `y`, as in `datetime`. -/
def daysInMonth (y m : Nat) : Nat :=
  if m = 2 then (if isLeapYear y then 29 else 28)
  else if m = 4 ∨ m = 6 ∨ m = 9 ∨ m = 11 then 30
  else 31

/-- Whether `datetime.strptime(s, "%Y-%m-%d")` succeeds: exactly four year
digits, one or two month and day digits, and a valid calendar date. -/
def validDate (s : String) : Bool :=
  match splitDash s.toList with
  | [ys, ms, ds] =>
    let y := digitsVal ys
    let m := digitsVal ms
    let d := digitsVal ds
    ys.length == 4 && ys.all Char.isDigit &&
    (ms.length == 1 || ms.length == 2) && ms.all Char.isDigit &&
    (ds.length == 1 || ds.length == 2) && ds.all Char.isDigit &&
    decide (1 ≤ y) && decide (1 ≤ m) && decide (m ≤ 12) &&
    decide (1 ≤ d) && decide (d ≤ daysInMonth y m)
  | _ => false

namespace FixerClient

/-- `FixerClient._get` applied to an already-parsed response body (the HTTP
transport and JSON parsing are outside the model): raise
`FixerException` when the `success` flag is absent or false, with error code
defaulting to `0` and message defaulting to `"Unknown error"` when the
`error` object or its fields are missing; otherwise return the data as is. -/
def _get (resp : FixerResponse) : Except FixerException FixerResponse :=
  if resp.success.getD false = false then
    .error { error_code := (resp.error.bind ErrorPayload.code).getD 0,
             message := (resp.error.bind ErrorPayload.info).getD "Unknown error" }
  else .ok resp

/-- The retry loop of `FixerClient._send`: issue request `i`, return on
success; on a `FixerException` with code 106 and remaining budget positive,
decrement the budget and retry the next request, otherwise re-raise.
Also counts the requests issued. -/
def sendAux (attempts : Nat → FixerResponse) :
    Nat → Nat → Except FixerException FixerResponse × Nat
  | i, 0 =>
    match _get (attempts i) with
    | .ok d => (.ok d, 1)
    | .error exc => (.error exc, 1)
  | i, r + 1 =>
    match _get (attempts i) with
    | .ok d => (.ok d, 1)
    | .error exc =>
      if exc.error_code = 106 then
        let rest := sendAux attempts (i + 1) r
        (rest.1, rest.2 + 1)
      else (.error exc, 1)

/-- `FixerClient._send`: run the retry loop starting from request 0 with the
client's configured retry budget. -/
def _send (retries : Nat) (attempts : Nat → FixerResponse) :
    Except FixerException FixerResponse × Nat :=
  sendAux attempts 0 retries

/-- The constructor default `retries: int = 1`. -/
def defaultRetries : Nat := 1

/-- The errors `get_rates` can raise: `ValueError` for argument validation,
the propagated `FixerException`, and `RuntimeError` for the missing USD
anchor. -/
inductive GetRatesError where
  | valueError (msg : String)
  | fixerError (exc : FixerException)
  | runtimeError (msg : String)

/-- The conversion loop of `get_rates`: every entry keeps its currency key;
`"USD"` is mapped to exactly `1.0` and every other currency to its EUR rate
divided by the EUR-to-USD rate. -/
def convertToUsd (rates_eur_base : List (String × Rat)) (eur_to_usd_rate : Rat) :
    List (String × Rat) :=
  rates_eur_base.map fun p => (p.1, if p.1 = "USD" then (1 : Rat) else p.2 / eur_to_usd_rate)

/-- `rates_usd_base.pop("USD", None)`: remove the USD binding. -/
def dropUsd (rates : List (String × Rat)) : List (String × Rat) :=
  rates.filter fun p => p.1 != "USD"

/-- The part of `get_rates` after argument validation: send the request,
propagate a `FixerException`, read the EUR-to-USD anchor with
`rates.get("USD", 0)`, raise `RuntimeError` when it is `0`, otherwise
convert to USD base and drop the USD key unless it was requested. -/
def getRatesCore (retries : Nat) (attempts : Nat → FixerResponse)
    (currencies : List String) :
    Except GetRatesError (List (String × Rat)) × Nat :=
  match _send retries attempts with
  | (.error exc, n) => (.error (.fixerError exc), n)
  | (.ok data, n) =>
    let rates_eur_base := data.rates
    let eur_to_usd_rate := (rates_eur_base.lookup "USD").getD 0
    if eur_to_usd_rate = 0 then
      (.error (.runtimeError "USD rate not found in API response, cannot convert to USD base."), n)
    else
      let rates_usd_base := convertToUsd rates_eur_base eur_to_usd_rate
      if "USD" ∈ currencies then (.ok rates_usd_base, n)
      else (.ok (dropUsd rates_usd_base), n)

/-- `FixerClient.get_rates`: reject an empty currency list and a malformed
date before any request, then run `getRatesCore`. The second component is
the number of HTTP requests issued. -/
def get_rates (retries : Nat) (attempts : Nat → FixerResponse)
    (currencies : List String) (at_date : Option String) :
    Except GetRatesError (List (String × Rat)) × Nat :=
  if currencies = [] then
    (.error (.valueError "Currencies list cannot be empty."), 0)
  else
    match at_date with
    | none => getRatesCore retries attempts currencies
    | some d =>
      if validDate d then getRatesCore retries attempts currencies
      else
        (.error (.valueError ("Invalid date format: " ++ d ++ ". Expected format: YYYY-MM-DD")), 0)

/-! ### Helper lemmas -/

theorem _get_ok (resp : FixerResponse) (h : resp.success = some true) :
    _get resp = .ok resp := by
  simp [_get, h]

theorem sendAux_ok (attempts : Nat → FixerResponse) (i retries : Nat) (d : FixerResponse)
    (h : _get (attempts i) = .ok d) :
    sendAux attempts i retries = (.ok d, 1) := by
  cases retries <;> simp [sendAux, h]

theorem send_of_ok (retries : Nat) (attempts : Nat → FixerResponse) (d : FixerResponse)
    (h : _get (attempts 0) = .ok d) :
    _send retries attempts = (.ok d, 1) :=
  sendAux_ok attempts 0 retries d h

theorem lookup_convertToUsd (u : Rat) (c : String) (rates : List (String × Rat)) :
    (convertToUsd rates u).lookup c =
      (rates.lookup c).map fun r => if c = "USD" then (1 : Rat) else r / u := by
  induction rates with
  | nil => simp [convertToUsd]
  | cons p t ih =>
    obtain ⟨a, b⟩ := p
    by_cases hac : c = a
    · subst hac
      simp [convertToUsd, List.lookup]
    · have hb : (c == a) = false := beq_eq_false_iff_ne.mpr hac
      simpa [convertToUsd, List.lookup, hb] using ih

theorem lookup_dropUsd_usd (l : List (String × Rat)) :
    (dropUsd l).lookup "USD" = none := by
  induction l with
  | nil => simp [dropUsd]
  | cons p t ih =>
    obtain ⟨a, b⟩ := p
    by_cases ha : a = "USD"
    · subst ha
      simpa [dropUsd] using ih
    · have hb : ("USD" == a) = false := beq_eq_false_iff_ne.mpr (Ne.symm ha)
      have hk : (a != "USD") = true := by simp [ha]
      simpa [dropUsd, List.lookup, hb, hk] using ih

theorem lookup_dropUsd_ne (c : String) (hc : c ≠ "USD") (l : List (String × Rat)) :
    (dropUsd l).lookup c = l.lookup c := by
  induction l with
  | nil => simp [dropUsd]
  | cons p t ih =>
    obtain ⟨a, b⟩ := p
    by_cases ha : a = "USD"
    · subst ha
      have hb : (c == "USD") = false := beq_eq_false_iff_ne.mpr hc
      simpa [dropUsd, List.lookup, hb] using ih
    · have hk : (a != "USD") = true := by simp [ha]
      by_cases hac : c = a
      · subst hac
        simp [dropUsd, List.lookup, hk]
      · have hb : (c == a) = false := beq_eq_false_iff_ne.mpr hac
        simpa [dropUsd, List.lookup, hk, hb] using ih

theorem get_rates_of_ok (retries : Nat) (attempts : Nat → FixerResponse)
    (currencies : List String) (resp : FixerResponse) (u : Rat)
    (hcur : currencies ≠ [])
    (hresp : attempts 0 = resp)
    (hsucc : resp.success = some true)
    (husd : resp.rates.lookup "USD" = some u)
    (hu : u ≠ 0) :
    get_rates retries attempts currencies none =
      (.ok (if "USD" ∈ currencies then convertToUsd resp.rates u
            else dropUsd (convertToUsd resp.rates u)), 1) := by
  have hsend : _send retries attempts = (.ok resp, 1) :=
    send_of_ok retries attempts resp (by rw [hresp]; exact _get_ok resp hsucc)
  simp only [get_rates, hcur, getRatesCore, hsend, husd, hu]
  simp [hcur, husd, hu]
  split <;> rfl

/-! ### Claim theorems -/

/-- C1: for every EUR-based rate response with a positive `"USD"` entry, and
every currency `c` other than `"USD"` present in that response, the USD-based
result of `get_rates` maps `c` to its EUR rate divided by the EUR-to-USD rate;
the `"USD"` entry itself, when kept, is exactly `1.0`. -/
theorem claim1_rebase_divides_by_usd (retries : Nat) (attempts : Nat → FixerResponse)
    (currencies : List String) (resp : FixerResponse) (u r : Rat) (c : String)
    (hcur : currencies ≠ [])
    (hresp : attempts 0 = resp)
    (hsucc : resp.success = some true)
    (husd : resp.rates.lookup "USD" = some u)
    (hupos : 0 < u)
    (hc : resp.rates.lookup c = some r)
    (hcne : c ≠ "USD") :
    ∃ out, get_rates retries attempts currencies none = (.ok out, 1) ∧
      out.lookup c = some (r / u) ∧
      ("USD" ∈ currencies → out.lookup "USD" = some 1) := by
  refine ⟨_, get_rates_of_ok retries attempts currencies resp u hcur hresp hsucc husd
    (ne_of_gt hupos), ?_, ?_⟩
  · by_cases hmem : "USD" ∈ currencies
    · simp [hmem, lookup_convertToUsd, hc, hcne]
    · simp [hmem, lookup_dropUsd_ne c hcne, lookup_convertToUsd, hc, hcne]
  · intro hmem
    simp [hmem, lookup_convertToUsd, husd]

/-- C1 witness: a concrete run with rates `USD ↦ 2`, `GBP ↦ 3` and requested
set `{GBP}` maps `GBP` to `3 / 2`. -/
theorem claim1_witness :
    ∃ out, get_rates 1 (fun _ => ⟨some true, none, [("USD", 2), ("GBP", 3)]⟩)
        ["GBP"] none = (.ok out, 1) ∧
      out.lookup "GBP" = some (3 / 2) ∧
      ("USD" ∈ ["GBP"] → out.lookup "USD" = some 1) :=
  claim1_rebase_divides_by_usd 1 (fun _ => ⟨some true, none, [("USD", 2), ("GBP", 3)]⟩)
    ["GBP"] ⟨some true, none, [("USD", 2), ("GBP", 3)]⟩ 2 3 "GBP"
    (by simp) rfl rfl (by simp [List.lookup]) (by norm_num)
    (by simp [List.lookup]) (by simp)

/-- C7: for a successful response with a positive `"USD"` rate, the result of
`get_rates` never contains a `"USD"` key when `"USD"` was not requested, and
maps `"USD"` to exactly `1.0` when it was. -/
theorem claim7_usd_key_discipline (retries : Nat) (attempts : Nat → FixerResponse)
    (currencies : List String) (resp : FixerResponse) (u : Rat)
    (hcur : currencies ≠ [])
    (hresp : attempts 0 = resp)
    (hsucc : resp.success = some true)
    (husd : resp.rates.lookup "USD" = some u)
    (hupos : 0 < u) :
    ∃ out, get_rates retries attempts currencies none = (.ok out, 1) ∧
      ("USD" ∉ currencies → out.lookup "USD" = none) ∧
      ("USD" ∈ currencies → out.lookup "USD" = some 1) := by
  refine ⟨_, get_rates_of_ok retries attempts currencies resp u hcur hresp hsucc husd
    (ne_of_gt hupos), ?_, ?_⟩
  · intro hmem
    simp [hmem, lookup_dropUsd_usd]
  · intro hmem
    simp [hmem, lookup_convertToUsd, husd]

/-- C7 witness: with rates `USD ↦ 2`, `GBP ↦ 3`, requesting `{GBP}` yields no
`"USD"` key (and the `"USD" ∈ currencies` branch is vacuous there). -/
theorem claim7_witness :
    ∃ out, get_rates 1 (fun _ => ⟨some true, none, [("USD", 2), ("GBP", 3)]⟩)
        ["GBP"] none = (.ok out, 1) ∧
      ("USD" ∉ ["GBP"] → out.lookup "USD" = none) ∧
      ("USD" ∈ ["GBP"] → out.lookup "USD" = some 1) :=
  claim7_usd_key_discipline 1 (fun _ => ⟨some true, none, [("USD", 2), ("GBP", 3)]⟩)
    ["GBP"] ⟨some true, none, [("USD", 2), ("GBP", 3)]⟩ 2
    (by simp) rfl rfl (by simp [List.lookup]) (by norm_num)

/-- C9: the anchor check rejects only a `"USD"` entry that is absent or
exactly `0`; any other value, including a negative one, is accepted and used
as the divisor, so returned rates can be negative. -/
theorem claim9_nonzero_usd_accepted (retries : Nat) (attempts : Nat → FixerResponse)
    (currencies : List String) (resp : FixerResponse) (u r : Rat) (c : String)
    (hcur : currencies ≠ [])
    (hresp : attempts 0 = resp)
    (hsucc : resp.success = some true)
    (husd : resp.rates.lookup "USD" = some u)
    (hu : u ≠ 0)
    (hc : resp.rates.lookup c = some r)
    (hcne : c ≠ "USD") :
    ∃ out, get_rates retries attempts currencies none = (.ok out, 1) ∧
      out.lookup c = some (r / u) := by
  refine ⟨_, get_rates_of_ok retries attempts currencies resp u hcur hresp hsucc husd hu, ?_⟩
  by_cases hmem : "USD" ∈ currencies
  · simp [hmem, lookup_convertToUsd, hc, hcne]
  · simp [hmem, lookup_dropUsd_ne c hcne, lookup_convertToUsd, hc, hcne]

/-- C9 witness: with the negative anchor `USD ↦ -2` and `GBP ↦ 9/10`, the run
succeeds (no conversion error) and returns the negative rate `(9/10) / (-2)`. -/
theorem claim9_witness :
    (∃ out, get_rates 1 (fun _ => ⟨some true, none, [("USD", -2), ("GBP", 9/10)]⟩)
        ["GBP"] none = (.ok out, 1) ∧
      out.lookup "GBP" = some ((9 / 10) / (-2 : Rat))) ∧
    ((9 : Rat) / 10 / (-2) < 0) :=
  ⟨claim9_nonzero_usd_accepted 1 (fun _ => ⟨some true, none, [("USD", -2), ("GBP", 9/10)]⟩)
    ["GBP"] ⟨some true, none, [("USD", -2), ("GBP", 9/10)]⟩ (-2) (9/10) "GBP"
    (by simp) rfl rfl (by simp [List.lookup]) (by norm_num)
    (by simp [List.lookup]) (by simp), by norm_num⟩

/-- C2: with the default retry budget of 1, a code-106 failure is retried
exactly once (two requests) and the error of the retried request is then
propagated; any other error code is propagated immediately after one request. -/
theorem claim2_retry_once_on_106 (attempts : Nat → FixerResponse)
    (currencies : List String) (e0 e1 : FixerException)
    (hcur : currencies ≠ [])
    (h0 : _get (attempts 0) = .error e0)
    (h1 : _get (attempts 1) = .error e1) :
    (e0.error_code = 106 →
      _send defaultRetries attempts = (.error e1, 2) ∧
      get_rates defaultRetries attempts currencies none = (.error (.fixerError e1), 2)) ∧
    (e0.error_code ≠ 106 →
      _send defaultRetries attempts = (.error e0, 1) ∧
      get_rates defaultRetries attempts currencies none = (.error (.fixerError e0), 1)) := by
  constructor
  · intro h106
    have hs : _send defaultRetries attempts = (.error e1, 2) := by
      simp [_send, defaultRetries, sendAux, h0, h1, h106]
    exact ⟨hs, by simp [get_rates, hcur, getRatesCore, hs]⟩
  · intro hne
    have hs : _send defaultRetries attempts = (.error e0, 1) := by
      simp [_send, defaultRetries, sendAux, h0, h1, hne]
    exact ⟨hs, by simp [get_rates, hcur, getRatesCore, hs]⟩

/-- C2 witness: a stream failing with code 106 then code 7 is retried once and
surfaces the second error after two requests; a stream failing with code 9 is
not retried. -/
theorem claim2_witness :
    (_send defaultRetries
        (fun i => if i = 0 then ⟨some false, some ⟨some 106, some "limit"⟩, []⟩
                  else ⟨some false, some ⟨some 7, some "bad"⟩, []⟩) =
      (.error ⟨7, "bad"⟩, 2) ∧
     get_rates defaultRetries
        (fun i => if i = 0 then ⟨some false, some ⟨some 106, some "limit"⟩, []⟩
                  else ⟨some false, some ⟨some 7, some "bad"⟩, []⟩) ["GBP"] none =
      (.error (.fixerError ⟨7, "bad"⟩), 2)) ∧
    (_send defaultRetries (fun _ => ⟨some false, some ⟨some 9, some "oops"⟩, []⟩) =
      (.error ⟨9, "oops"⟩, 1) ∧
     get_rates defaultRetries (fun _ => ⟨some false, some ⟨some 9, some "oops"⟩, []⟩)
        ["GBP"] none =
      (.error (.fixerError ⟨9, "oops"⟩), 1)) :=
  ⟨(claim2_retry_once_on_106
      (fun i => if i = 0 then ⟨some false, some ⟨some 106, some "limit"⟩, []⟩
                else ⟨some false, some ⟨some 7, some "bad"⟩, []⟩)
      ["GBP"] ⟨106, "limit"⟩ ⟨7, "bad"⟩ (by simp) (by simp [_get]) (by simp [_get])).1 rfl,
   (claim2_retry_once_on_106 (fun _ => ⟨some false, some ⟨some 9, some "oops"⟩, []⟩)
      ["GBP"] ⟨9, "oops"⟩ ⟨9, "oops"⟩ (by simp) (by simp [_get]) (by simp [_get])).2
      (by decide)⟩

/-- C5: on a successful response whose `"USD"` entry is absent or `0`,
`get_rates` fails with the conversion `RuntimeError` after exactly one
request, so the failure is never retried. -/
theorem claim5_conversion_error_on_missing_usd (retries : Nat)
    (attempts : Nat → FixerResponse) (currencies : List String) (resp : FixerResponse)
    (hcur : currencies ≠ [])
    (hresp : attempts 0 = resp)
    (hsucc : resp.success = some true)
    (husd : resp.rates.lookup "USD" = none ∨ resp.rates.lookup "USD" = some 0) :
    get_rates retries attempts currencies none =
      (.error (.runtimeError
        "USD rate not found in API response, cannot convert to USD base."), 1) := by
  have hsend : _send retries attempts = (.ok resp, 1) :=
    send_of_ok retries attempts resp (by rw [hresp]; exact _get_ok resp hsucc)
  have hz : (resp.rates.lookup "USD").getD 0 = 0 := by
    rcases husd with h | h <;> simp [h]
  simp [get_rates, hcur, getRatesCore, hsend, hz]

/-- C5 witness: a successful response with no `"USD"` entry at all fails with
the conversion error after a single request, for any retry budget. -/
theorem claim5_witness :
    get_rates 7 (fun _ => ⟨some true, none, [("GBP", 3)]⟩) ["GBP"] none =
      (.error (.runtimeError
        "USD rate not found in API response, cannot convert to USD base."), 1) :=
  claim5_conversion_error_on_missing_usd 7 (fun _ => ⟨some true, none, [("GBP", 3)]⟩)
    ["GBP"] ⟨some true, none, [("GBP", 3)]⟩ (by simp) rfl rfl
    (Or.inl (by simp [List.lookup]))

/-- C6: `get_rates` fails with `ValueError` on an empty currency list and on a
date that does not parse as `YYYY-MM-DD`; in both cases zero requests are
issued. -/
theorem claim6_invalid_arguments (retries : Nat) (attempts : Nat → FixerResponse)
    (currencies : List String) (at_date : Option String) (d : String) :
    get_rates retries attempts [] at_date =
      (.error (.valueError "Currencies list cannot be empty."), 0) ∧
    (currencies ≠ [] → validDate d = false →
      get_rates retries attempts currencies (some d) =
        (.error (.valueError
          ("Invalid date format: " ++ d ++ ". Expected format: YYYY-MM-DD")), 0)) := by
  constructor
  · simp [get_rates]
  · intro hcur hd
    simp [get_rates, hcur, hd]

/-- C6 witness: the empty list is rejected, and the out-of-range date
`"2023-13-01"` is rejected with zero requests issued. -/
theorem claim6_witness :
    get_rates 1 (fun _ => ⟨some true, none, []⟩) [] none =
      (.error (.valueError "Currencies list cannot be empty."), 0) ∧
    get_rates 1 (fun _ => ⟨some true, none, []⟩) ["GBP"] (some "2023-13-01") =
      (.error (.valueError
        ("Invalid date format: " ++ "2023-13-01" ++ ". Expected format: YYYY-MM-DD")), 0) :=
  ⟨(claim6_invalid_arguments 1 (fun _ => ⟨some true, none, []⟩) ["GBP"] none
      "2023-13-01").1,
   (claim6_invalid_arguments 1 (fun _ => ⟨some true, none, []⟩) ["GBP"] none
      "2023-13-01").2 (by simp) (by decide)⟩

/-- The retry loop issues between 1 and `retries + 1` requests and its result
is exactly the outcome of the last request it issued. -/
theorem sendAux_spec (attempts : Nat → FixerResponse) :
    ∀ (retries i : Nat),
      1 ≤ (sendAux attempts i retries).2 ∧
      (sendAux attempts i retries).2 ≤ retries + 1 ∧
      (sendAux attempts i retries).1 = _get (attempts (i + (sendAux attempts i retries).2 - 1))
  | 0, i => by
    rcases h : _get (attempts i) with e | d <;> simp [sendAux, h]
  | r + 1, i => by
    rcases h : _get (attempts i) with e | d
    · by_cases h106 : e.error_code = 106
      · have ih := sendAux_spec attempts r (i + 1)
        simp only [sendAux, h, h106, if_true]
        refine ⟨by omega, by omega, ?_⟩
        have harith : i + ((sendAux attempts (i + 1) r).2 + 1) - 1 =
            i + 1 + (sendAux attempts (i + 1) r).2 - 1 := by omega
        rw [harith]
        exact ih.2.2
      · simp [sendAux, h, h106]
    · simp [sendAux, h]

/-- C8: for every retry budget and every stream of responses, `_send`
terminates after at most `retries + 1` requests (and at least one), returning
the successful response or raising the error of its last request. -/
theorem claim8_send_terminates_bounded (retries : Nat) (attempts : Nat → FixerResponse) :
    1 ≤ (_send retries attempts).2 ∧
    (_send retries attempts).2 ≤ retries + 1 ∧
    (_send retries attempts).1 = _get (attempts ((_send retries attempts).2 - 1)) := by
  have h := sendAux_spec attempts retries 0
  simpa [_send] using h

/-- C10: a response whose `success` flag is false or absent and which carries
no `error` object raises `FixerException 0 "Unknown error"`; since `0 ≠ 106`
the error is propagated after a single request for every retry budget. -/
theorem claim10_default_error_no_retry (retries : Nat) (attempts : Nat → FixerResponse)
    (resp : FixerResponse)
    (hsucc : resp.success = none ∨ resp.success = some false)
    (herr : resp.error = none)
    (hresp : attempts 0 = resp) :
    _get resp = .error ⟨0, "Unknown error"⟩ ∧
    _send retries attempts = (.error ⟨0, "Unknown error"⟩, 1) := by
  have hget : _get resp = .error ⟨0, "Unknown error"⟩ := by
    rcases hsucc with h | h <;> simp [_get, h, herr]
  refine ⟨hget, ?_⟩
  have h0 : _get (attempts 0) = .error ⟨0, "Unknown error"⟩ := by rw [hresp]; exact hget
  cases retries with
  | zero => simp [_send, sendAux, h0]
  | succ r => simp [_send, sendAux, h0]

/-- C10 witness: the empty payload (no `success`, no `error`) raises the
default error and is not retried even with a positive budget. -/
theorem claim10_witness :
    _get ⟨none, none, []⟩ = .error ⟨0, "Unknown error"⟩ ∧
    _send 5 (fun _ => ⟨none, none, []⟩) = (.error ⟨0, "Unknown error"⟩, 1) :=
  claim10_default_error_no_retry 5 (fun _ => ⟨none, none, []⟩) ⟨none, none, []⟩
    (Or.inl rfl) rfl rfl

/-- The worked example of the specification: a successful response with rates
`USD ↦ 1.1`, `GBP ↦ 0.9`, `EUR ↦ 1.0`. -/
def exampleEurResponse : FixerResponse :=
  ⟨some true, none, [("USD", 11 / 10), ("GBP", 9 / 10), ("EUR", 1)]⟩

/-- C3 counterexample: on the specification's example response, requesting
`{GBP}` yields an output that also contains an `"EUR"` key (the code never
filters unrequested currencies other than `"USD"`), and requesting `{USD}`
yields `GBP` and `EUR` keys besides `"USD" ↦ 1.0` — not the claimed outputs. -/
theorem claim3_counterexample :
    (get_rates defaultRetries (fun _ => exampleEurResponse) ["GBP"] none).1 =
      .ok [("GBP", 9 / 11), ("EUR", 10 / 11)] ∧
    List.lookup "EUR" [("GBP", (9 : Rat) / 11), ("EUR", 10 / 11)] = some (10 / 11) ∧
    (get_rates defaultRetries (fun _ => exampleEurResponse) ["USD"] none).1 =
      .ok [("USD", 1), ("GBP", 9 / 11), ("EUR", 10 / 11)] ∧
    List.lookup "GBP" [("USD", (1 : Rat)), ("GBP", 9 / 11), ("EUR", 10 / 11)] =
      some (9 / 11) := by
  have h1 := get_rates_of_ok defaultRetries (fun _ => exampleEurResponse) ["GBP"]
    exampleEurResponse (11 / 10) (by simp) rfl rfl
    (by simp [exampleEurResponse, List.lookup]) (by norm_num)
  have h2 := get_rates_of_ok defaultRetries (fun _ => exampleEurResponse) ["USD"]
    exampleEurResponse (11 / 10) (by simp) rfl rfl
    (by simp [exampleEurResponse, List.lookup]) (by norm_num)
  refine ⟨?_, by simp [List.lookup], ?_, by simp [List.lookup]⟩
  · rw [h1]
    simp [exampleEurResponse, convertToUsd, dropUsd]
    norm_num
  · rw [h2]
    simp [exampleEurResponse, convertToUsd, dropUsd]
    norm_num

/-- C3 amended: on the example response, requesting `{GBP}` yields
`{GBP ↦ 0.9/1.1, EUR ↦ 1.0/1.1}` (USD removed, EUR retained), and requesting
`{USD}` yields `{USD ↦ 1.0, GBP ↦ 0.9/1.1, EUR ↦ 1.0/1.1}`. -/
theorem claim3_amended_examples :
    get_rates defaultRetries (fun _ => exampleEurResponse) ["GBP"] none =
      (.ok [("GBP", (9 / 10) / (11 / 10)), ("EUR", 1 / (11 / 10))], 1) ∧
    get_rates defaultRetries (fun _ => exampleEurResponse) ["USD"] none =
      (.ok [("USD", 1), ("GBP", (9 / 10) / (11 / 10)), ("EUR", 1 / (11 / 10))], 1) := by
  have h1 := get_rates_of_ok defaultRetries (fun _ => exampleEurResponse) ["GBP"]
    exampleEurResponse (11 / 10) (by simp) rfl rfl
    (by simp [exampleEurResponse, List.lookup]) (by norm_num)
  have h2 := get_rates_of_ok defaultRetries (fun _ => exampleEurResponse) ["USD"]
    exampleEurResponse (11 / 10) (by simp) rfl rfl
    (by simp [exampleEurResponse, List.lookup]) (by norm_num)
  constructor
  · rw [h1]
    simp [exampleEurResponse, convertToUsd, dropUsd]
  · rw [h2]
    simp [exampleEurResponse, convertToUsd, dropUsd]

/-- C4 counterexample: on the example response, `get_rates` does not return
the raw EUR-based rates: the returned `"USD"` entry is `1`, while the raw
response carried `"USD" ↦ 11/10 ≠ 1`. -/
theorem claim4_counterexample :
    (get_rates defaultRetries (fun _ => exampleEurResponse) ["GBP", "USD"] none).1 =
      .ok [("USD", 1), ("GBP", 9 / 11), ("EUR", 10 / 11)] ∧
    exampleEurResponse.rates.lookup "USD" = some (11 / 10) ∧
    List.lookup "USD" [("USD", (1 : Rat)), ("GBP", 9 / 11), ("EUR", 10 / 11)] = some 1 ∧
    ((11 : Rat) / 10 ≠ 1) := by
  have h := get_rates_of_ok defaultRetries (fun _ => exampleEurResponse) ["GBP", "USD"]
    exampleEurResponse (11 / 10) (by simp) rfl rfl
    (by simp [exampleEurResponse, List.lookup]) (by norm_num)
  refine ⟨?_, by simp [exampleEurResponse, List.lookup], by simp [List.lookup], by norm_num⟩
  rw [h]
  simp [exampleEurResponse, convertToUsd, dropUsd]
  norm_num

/-- C4 amended: on a successful response the fetch-and-retry step (`_get`,
`_send`) returns the parsed data exactly as provided, including the raw
EUR-based rates with their `"USD"` entry; `get_rates` itself then returns the
USD-rebased conversion of those rates, not the raw set. -/
theorem claim4_amended_fetch_returns_raw (retries : Nat)
    (attempts : Nat → FixerResponse) (currencies : List String)
    (resp : FixerResponse) (u : Rat)
    (hcur : currencies ≠ [])
    (hresp : attempts 0 = resp)
    (hsucc : resp.success = some true)
    (husd : resp.rates.lookup "USD" = some u)
    (hu : u ≠ 0) :
    _get resp = .ok resp ∧
    _send retries attempts = (.ok resp, 1) ∧
    get_rates retries attempts currencies none =
      (.ok (if "USD" ∈ currencies then convertToUsd resp.rates u
            else dropUsd (convertToUsd resp.rates u)), 1) :=
  ⟨_get_ok resp hsucc,
   send_of_ok retries attempts resp (by rw [hresp]; exact _get_ok resp hsucc),
   get_rates_of_ok retries attempts currencies resp u hcur hresp hsucc husd hu⟩

/-- C4 witness: on the example response requested with `{GBP, USD}`, the fetch
step returns the raw data and `get_rates` returns its conversion. -/
theorem claim4_witness :
    _get exampleEurResponse = .ok exampleEurResponse ∧
    _send defaultRetries (fun _ => exampleEurResponse) = (.ok exampleEurResponse, 1) ∧
    get_rates defaultRetries (fun _ => exampleEurResponse) ["GBP", "USD"] none =
      (.ok (if "USD" ∈ ["GBP", "USD"] then convertToUsd exampleEurResponse.rates (11 / 10)
            else dropUsd (convertToUsd exampleEurResponse.rates (11 / 10))), 1) :=
  claim4_amended_fetch_returns_raw defaultRetries (fun _ => exampleEurResponse)
    ["GBP", "USD"] exampleEurResponse (11 / 10) (by simp) rfl rfl
    (by simp [exampleEurResponse, List.lookup]) (by norm_num)

end FixerClient

end FxCollect
